import Mathlib

/-!
Verification of the BMAD memory-system pre-storage gatekeeper.

Shallow embedding of the Python sources:
* `src/core/memory/models.py`        → namespace `Models`
* `src/core/memory/token_budget.py`  → namespace `TokenBudget`
* `scripts/memory/validate_metadata.py` → namespace `ValidateMetadata`
* `scripts/memory/validate_storage.py`  → namespace `ValidateStorage`
* `scripts/memory/check_duplicates.py`  → namespace `CheckDuplicates`

Conventions used throughout:
* Python strings are Lean `String`s; `len(s)` is `s.length`.
* Python `float` arithmetic on token estimates and similarity scores is
  modelled with `ℚ`.  Every value that actually occurs (quarters obtained
  from `len/4`, literal thresholds such as `0.85`) is represented exactly,
  so all comparisons agree with the source.
* Calls into external collaborators (the Qdrant client, the sentence
  transformer) are modelled by explicit "store" structures holding the
  per-collection responses; an exception thrown by a lookup is an
  `Except.error` carrying the exception text.
* `print(..., file=sys.stderr)` logging is modelled by returning a list of
  log lines alongside the computed value.
-/

/-- The single-quote character, used when reproducing Python message strings. -/
def sqc : String := String.singleton (Char.ofNat 39)

/-- Substring test: Python `needle in hay`.  The empty needle is contained in
everything, matching Python semantics. -/
def listContainsSub (needle : List Char) : List Char → Bool
  | [] => needle.isPrefixOf []
  | c :: cs => needle.isPrefixOf (c :: cs) || listContainsSub needle cs

/-- Substring test on strings: Python `needle in hay`. -/
def strContains (hay needle : String) : Bool :=
  listContainsSub needle.toList hay.toList

/-- Python `s.upper()` for ASCII text, computed characterwise. -/
def pyUpper (s : String) : String :=
  String.mk (s.toList.map Char.toUpper)

/-- Python `s.lower()` for ASCII text, computed characterwise. -/
def pyLower (s : String) : String :=
  String.mk (s.toList.map Char.toLower)

/-- Python `s.startswith(p)`, computed on the character lists. -/
def pyStartsWith (s p : String) : Bool :=
  p.toList.isPrefixOf s.toList

/-- Python `s.strip()`: drop whitespace from both ends. -/
def pyStrip (s : String) : String :=
  String.mk (((s.toList.dropWhile Char.isWhitespace).reverse.dropWhile
    Char.isWhitespace).reverse)

/-- Splits a character list at a separator character. -/
def splitCharsAux (sep : Char) : List Char → List Char → List (List Char)
  | [], acc => [acc.reverse]
  | c :: cs, acc =>
    if c == sep then acc.reverse :: splitCharsAux sep cs []
    else splitCharsAux sep cs (c :: acc)

/-- Python `s.split(sep)` for a one-character separator. -/
def pySplit (sep : Char) (s : String) : List String :=
  (splitCharsAux sep s.toList []).map String.mk

/-- Python `repr` of a list of strings, as produced by an f-string such as
`f"Missing required fields: {missing}"`. -/
def pyListRepr (xs : List String) : String :=
  "[" ++ String.intercalate ", " (xs.map (fun x => sqc ++ x ++ sqc)) ++ "]"

/-- Models `hashlib.sha256(content.encode("utf-8")).hexdigest()`.  The claims
never depend on the actual SHA-256 compression, only on the digest being a
deterministic function of the content compared by string equality, so the
digest is modelled as a tagged copy of the content. -/
def sha256Hex (content : String) : String :=
  "sha256:" ++ content

/-- Payload of a stored Qdrant point, restricted to the keys the gatekeeper
reads (`payload.get("content_hash", "")` etc.); absent keys are the empty
string, matching the `.get(key, "")` defaults in the source. -/
structure QPayload where
  content_hash : String := ""
  unique_id : String := ""
  mtype : String := ""
  deriving DecidableEq, Repr

/-- A stored Qdrant point: `point.id` and `point.payload` (which may be
`None`; the source replaces `None` by `{}`). -/
structure QPoint where
  id : Nat
  payload : Option QPayload
  deriving DecidableEq, Repr

/-- Reads of `point.payload or {}` in the source. -/
def QPoint.payloadD (p : QPoint) : QPayload :=
  p.payload.getD {}

/-- Metadata mapping.  The gatekeeper only ever reads string-valued fields
(`metadata.get("type", "")`, …), so metadata is modelled as an association
list from keys to string values; the first binding of a key wins, which
coincides with Python `dict` behaviour on the well-formed inputs used here. -/
def Metadata : Type := List (String × String)

/-- Python `key in metadata`. -/
def mhas (m : Metadata) (k : String) : Bool :=
  (List.find? (fun p => p.1 = k) m).isSome

/-- Python `metadata.get(key, "")`. -/
def mgetD (m : Metadata) (k : String) : String :=
  ((List.find? (fun p => p.1 = k) m).map (fun p => p.2)).getD ""

namespace TokenBudget

/-- `AGENT_TOKEN_BUDGETS` from `token_budget.py`. -/
def AGENT_TOKEN_BUDGETS : List (String × Nat) :=
  [("architect", 1500),
   ("analyst", 1200),
   ("pm", 1200),
   ("dev", 1000),
   ("tea", 1000),
   ("tech-writer", 1000),
   ("ux-designer", 1000),
   ("quick-flow-solo-dev", 1000),
   ("sm", 800)]

/-- `MAX_MEMORIES_PER_AGENT` from `token_budget.py`. -/
def MAX_MEMORIES_PER_AGENT : Nat := 3

/-- `get_token_limit`: `AGENT_TOKEN_BUDGETS.get(agent, 1000)`. -/
def get_token_limit (agent : String) : Nat :=
  (((AGENT_TOKEN_BUDGETS.find? (fun p => p.1 = agent)).map (fun p => p.2)).getD 1000)

/-- `get_memory_limit`. -/
def get_memory_limit (_agent : String) : Nat :=
  MAX_MEMORIES_PER_AGENT

/-- `SearchResult` as consumed by `get_optimal_context`: the `content` string
and the similarity `score` (a Python float, modelled in `ℚ`). -/
structure SearchResult where
  content : String
  score : ℚ
  deriving DecidableEq, Repr

/-- `len(result.content) / 4`, the per-result token estimate. -/
def resultTokens (r : SearchResult) : ℚ :=
  (r.content.length : ℚ) / 4

/-- The greedy selection loop of `get_optimal_context`: iterate over the
(already truncated) result list; `continue` on a score below the threshold,
`break` when the running total would exceed the budget, otherwise accept. -/
def selectLoop (token_budget include_score_threshold : ℚ) :
    List SearchResult → ℚ → List SearchResult × ℚ
  | [], total => ([], total)
  | r :: rs, total =>
    if r.score < include_score_threshold then
      selectLoop token_budget include_score_threshold rs total
    else if token_budget < total + resultTokens r then
      ([], total)
    else
      let rest := selectLoop token_budget include_score_threshold rs (total + resultTokens r)
      (r :: rest.1, rest.2)

/-- `get_optimal_context` from `token_budget.py`: truncate to the per-agent
memory cap, then run the greedy pass; returns the selection and
`int(total_tokens)` (truncation of a non-negative total, i.e. the floor). -/
def get_optimal_context (agent : String) (results : List SearchResult)
    (include_score_threshold : ℚ := 0) : List SearchResult × ℤ :=
  let token_budget : ℚ := get_token_limit agent
  let max_memories := get_memory_limit agent
  let sel := selectLoop token_budget include_score_threshold (results.take max_memories) 0
  (sel.1, ⌊sel.2⌋)

theorem selectLoop_total (b t : ℚ) :
    ∀ (rs : List SearchResult) (total : ℚ),
      (selectLoop b t rs total).2 = total + ((selectLoop b t rs total).1.map resultTokens).sum := by
  intro rs
  induction rs with
  | nil => intro total; simp [selectLoop]
  | cons r rs ih =>
    intro total
    by_cases h1 : r.score < t
    · simpa [selectLoop, h1] using ih total
    · by_cases h2 : b < total + resultTokens r
      · simp [selectLoop, h1, h2]
      · have := ih (total + resultTokens r)
        simp only [selectLoop, if_neg h1, if_neg h2, List.map_cons, List.sum_cons]
        rw [this]
        ring

theorem selectLoop_le (b t : ℚ) :
    ∀ (rs : List SearchResult) (total : ℚ), total ≤ b → (selectLoop b t rs total).2 ≤ b := by
  intro rs
  induction rs with
  | nil => intro total h; simpa [selectLoop] using h
  | cons r rs ih =>
    intro total h
    by_cases h1 : r.score < t
    · simpa [selectLoop, h1] using ih total h
    · by_cases h2 : b < total + resultTokens r
      · simpa [selectLoop, h1, h2] using h
      · simpa [selectLoop, h1, h2] using ih (total + resultTokens r) (not_lt.mp h2)

theorem selectLoop_length_le (b t : ℚ) :
    ∀ (rs : List SearchResult) (total : ℚ), (selectLoop b t rs total).1.length ≤ rs.length := by
  intro rs
  induction rs with
  | nil => intro total; simp [selectLoop]
  | cons r rs ih =>
    intro total
    by_cases h1 : r.score < t
    · simp only [selectLoop, if_pos h1]
      exact le_trans (ih total) (Nat.le_succ _)
    · by_cases h2 : b < total + resultTokens r
      · simp [selectLoop, h1, h2]
      · simp only [selectLoop, if_neg h1, if_neg h2, List.length_cons]
        exact Nat.succ_le_succ (ih _)

theorem selectLoop_prefix_filter (b t : ℚ) :
    ∀ (rs : List SearchResult) (total : ℚ),
      ∃ (tail : List SearchResult),
        (selectLoop b t rs total).1 ++ tail = rs.filter (fun r => !decide (r.score < t)) := by
  intro rs
  induction rs with
  | nil => intro total; exact ⟨[], by simp [selectLoop]⟩
  | cons r rs ih =>
    intro total
    by_cases h1 : r.score < t
    · simpa [selectLoop, h1, List.filter_cons] using ih total
    · by_cases h2 : b < total + resultTokens r
      · refine ⟨r :: rs.filter (fun r => !decide (r.score < t)), ?_⟩
        simp [selectLoop, h1, h2, List.filter_cons]
      · obtain ⟨tail, htail⟩ := ih (total + resultTokens r)
        refine ⟨tail, ?_⟩
        simp [selectLoop, h1, h2, List.filter_cons, htail]

end TokenBudget

/-- C4: for every agent, candidate list and score cutoff, the selection
returned by `get_optimal_context` has a summed token estimate
(`len(content)/4` per result) at or under the agent's token ceiling (with
1000 as the default for agents outside `AGENT_TOKEN_BUDGETS`), and contains
at most `MAX_MEMORIES_PER_AGENT = 3` memories. -/
theorem c4_budget_respected (agent : String) (results : List TokenBudget.SearchResult)
    (threshold : ℚ) :
    (((TokenBudget.get_optimal_context agent results threshold).1.map
        TokenBudget.resultTokens).sum ≤ (TokenBudget.get_token_limit agent : ℚ))
    ∧ (TokenBudget.get_optimal_context agent results threshold).1.length
        ≤ TokenBudget.get_memory_limit agent := by
  constructor
  · have h1 := TokenBudget.selectLoop_total (TokenBudget.get_token_limit agent) threshold
      (results.take (TokenBudget.get_memory_limit agent)) 0
    have h2 := TokenBudget.selectLoop_le (TokenBudget.get_token_limit agent) threshold
      (results.take (TokenBudget.get_memory_limit agent)) 0 (by positivity)
    rw [h1] at h2
    simpa [TokenBudget.get_optimal_context] using h2
  · have h3 := TokenBudget.selectLoop_length_le (TokenBudget.get_token_limit agent) threshold
      (results.take (TokenBudget.get_memory_limit agent)) 0
    have h4 : (results.take (TokenBudget.get_memory_limit agent)).length
        ≤ TokenBudget.get_memory_limit agent := by
      simp
    simpa [TokenBudget.get_optimal_context] using le_trans h3 h4

/-- C5 (amended): the selection of `get_optimal_context` is a prefix of the
score-filtered truncation of the input (the first `get_memory_limit agent`
candidates whose score is not below the cutoff), and hence an
order-preserving sublist of the input; it is not in general a prefix of the
raw input (see the counterexample). -/
theorem c5_selection_subsequence (agent : String) (results : List TokenBudget.SearchResult)
    (threshold : ℚ) :
    (∃ tail, (TokenBudget.get_optimal_context agent results threshold).1 ++ tail
        = (results.take (TokenBudget.get_memory_limit agent)).filter
            (fun r => !decide (r.score < threshold)))
    ∧ List.Sublist (TokenBudget.get_optimal_context agent results threshold).1 results := by
  obtain ⟨tail, htail⟩ := TokenBudget.selectLoop_prefix_filter
    (TokenBudget.get_token_limit agent) threshold
    (results.take (TokenBudget.get_memory_limit agent)) 0
  constructor
  · exact ⟨tail, by simpa [TokenBudget.get_optimal_context] using htail⟩
  · have hsub : List.Sublist (TokenBudget.get_optimal_context agent results threshold).1
        ((results.take (TokenBudget.get_memory_limit agent)).filter
            (fun r => !decide (r.score < threshold))) := by
      have hap : List.Sublist (TokenBudget.get_optimal_context agent results threshold).1
          ((TokenBudget.get_optimal_context agent results threshold).1 ++ tail) :=
        List.sublist_append_left _ _
      rw [← htail]
      simp only [TokenBudget.get_optimal_context] at hap ⊢
      exact hap
    exact hsub.trans ((List.filter_sublist _).trans (List.take_sublist _ _))

/-- First candidate of the C5 counterexample: score 0, below the cutoff. -/
def c5r0 : TokenBudget.SearchResult := ⟨"aaaa", 0⟩

/-- Second candidate of the C5 counterexample: score 1, accepted. -/
def c5r1 : TokenBudget.SearchResult := ⟨"bbbb", 1⟩

/-- C5 counterexample: with cutoff 1/2 the first candidate (score 0) is
skipped and the second (score 1) is selected, so the selection `[c5r1]` is
not a prefix of the input `[c5r0, c5r1]`: the claim that the selection always
equals a prefix of the input list is false. -/
theorem c5_counterexample :
    ¬ ∃ tail, (TokenBudget.get_optimal_context "dev" [c5r0, c5r1] (mkRat 1 2)).1 ++ tail
        = [c5r0, c5r1] := by
  rintro ⟨tail, htail⟩
  have hsel : (TokenBudget.get_optimal_context "dev" [c5r0, c5r1] (mkRat 1 2)).1 = [c5r1] := by
    have hb : TokenBudget.get_token_limit "dev" = 1000 := rfl
    have hm : TokenBudget.get_memory_limit "dev" = 3 := rfl
    have hlen4 : "bbbb".length = 4 := rfl
    have hlen : (("bbbb".length : ℚ)) / 4 = 1 := by rw [hlen4]; norm_num
    norm_num [TokenBudget.get_optimal_context, hb, hm, TokenBudget.selectLoop,
      TokenBudget.resultTokens, c5r0, c5r1, hlen, mkRat, Rat.normalize]
  rw [hsel] at htail
  have hhead : c5r1 = c5r0 := by
    have := congrArg (fun l => l.head?) htail
    simpa using this
  exact absurd (congrArg TokenBudget.SearchResult.content hhead) (by decide)

namespace Models

/-- `MemoryType` from `models.py`: the `Literal[...]` alternatives, i.e. the
set of type strings the data model accepts. -/
def MemoryType : List String :=
  ["architecture_decision",
   "story_outcome",
   "error_pattern",
   "requirement",
   "implementation_detail",
   "test_strategy",
   "lesson_learned",
   "decision_rationale",
   "chat_memory",
   "best_practice",
   "session_summary"]

/-- `AgentName` from `models.py`. -/
def AgentName : List String :=
  ["analyst", "architect", "dev", "pm", "sm", "tea", "tech-writer",
   "ux-designer", "quick-flow-solo-dev"]

/-- `ImportanceLevel` from `models.py`. -/
def ImportanceLevel : List String := ["critical", "high", "medium", "low"]

/-- `MemoryShard` dataclass fields from `models.py`.  The `id` field is
`uuid.uuid4()` by default in the source; the generated value never influences
validation, so it is an ordinary string field here. -/
structure MemoryShard where
  content : String
  unique_id : String
  group_id : String
  type : String
  agent : String
  component : String
  importance : String
  created_at : String
  story_id : Option String := none
  epic_id : Option String := none
  tags : List String := []
  id : String := ""
  deriving DecidableEq, Repr

/-- The `ValueError`s that `MemoryShard.__post_init__` can raise. -/
inductive ShardError where
  | contentTooShort
  | contentTooLong
  | invalidDate
  deriving DecidableEq, Repr

/-- The `max_tokens = 1500 if self.type == "session_summary" else 500`
computation in `__post_init__`. -/
def shardMaxTokens (t : String) : Nat :=
  if t = "session_summary" then 1500 else 500

/-- `MemoryShard.__post_init__` from `models.py`: fails when the token
estimate `len(content) / 4` (Python float division, exact in `ℚ`) is below
50 or above the per-type maximum, then fails when `created_at` does not
parse.  `createdAtParses` models the success of the external
`datetime.fromisoformat(self.created_at)` call. -/
def post_init (s : MemoryShard) (createdAtParses : Bool) : Except ShardError Unit :=
  let char_count := s.content.length
  let token_estimate : ℚ := (char_count : ℚ) / 4
  let max_tokens := shardMaxTokens s.type
  if token_estimate < 50 then Except.error ShardError.contentTooShort
  else if (max_tokens : ℚ) < token_estimate then Except.error ShardError.contentTooLong
  else if createdAtParses then Except.ok () else Except.error ShardError.invalidDate

theorem shardMaxTokens_ge (t : String) : 500 ≤ shardMaxTokens t := by
  unfold shardMaxTokens
  split <;> norm_num

end Models

/-- C3: for every shard with a valid type and parsing `created_at`,
`__post_init__` succeeds exactly when the token estimate
(`len(content)/4`) lies within the type's bounds (minimum 50, maximum
`shardMaxTokens` — 500, or 1500 for `session_summary`), and it raises the
range error one token-unit below the minimum (estimate 49, i.e. 196
characters) and one unit above the maximum (estimate max+1). -/
theorem c3_shard_token_bounds (s : Models.MemoryShard)
    (_ht : s.type ∈ Models.MemoryType) :
    (Models.post_init s true = Except.ok () ↔
      (50 : ℚ) ≤ (s.content.length : ℚ) / 4 ∧
        (s.content.length : ℚ) / 4 ≤ (Models.shardMaxTokens s.type : ℚ))
    ∧ (∀ s' : Models.MemoryShard, s'.type = s.type → s'.content.length = 4 * 49 →
        Models.post_init s' true = Except.error Models.ShardError.contentTooShort)
    ∧ (∀ s' : Models.MemoryShard, s'.type = s.type →
        s'.content.length = 4 * (Models.shardMaxTokens s.type + 1) →
        Models.post_init s' true = Except.error Models.ShardError.contentTooLong) := by
  refine ⟨?_, ?_, ?_⟩
  · constructor
    · intro h
      simp only [Models.post_init] at h
      split_ifs at h with h1 h2
      exact ⟨not_lt.mp h1, not_lt.mp h2⟩
    · rintro ⟨ha, hb⟩
      simp only [Models.post_init]
      rw [if_neg (not_lt.mpr ha), if_neg (not_lt.mpr hb)]
      simp
  · intro s' _hty hlen
    simp only [Models.post_init, hlen]
    rw [if_pos (by norm_num)]
  · intro s' hty hlen
    have hmax := Models.shardMaxTokens_ge s.type
    have hm' : (500 : ℚ) ≤ (Models.shardMaxTokens s.type : ℚ) := by exact_mod_cast hmax
    have hest : ((s'.content.length : ℚ)) / 4 = (Models.shardMaxTokens s.type : ℚ) + 1 := by
      rw [hlen]; push_cast; ring
    simp only [Models.post_init, hty, hest]
    rw [if_neg (by linarith), if_pos (by linarith)]

/-- Concrete shard used to witness C3: 800 characters of content (200
estimated tokens) with type `story_outcome`. -/
def c3shard : Models.MemoryShard :=
  { content := String.mk (List.replicate 800 'a'),
    unique_id := "story-1-12345",
    group_id := "demo-group",
    type := "story_outcome",
    agent := "dev",
    component := "api",
    importance := "high",
    created_at := "2026-01-04" }

/-- Witness for C3: the 800-character `story_outcome` shard (200 estimated
tokens, within [50, 500]) constructs successfully. -/
theorem c3_shard_token_bounds_witness :
    Models.post_init c3shard true = Except.ok () := by
  have h := (c3_shard_token_bounds c3shard (by decide)).1
  refine h.mpr ?_
  have hlen : c3shard.content.length = 800 := List.length_replicate 800 'a'
  rw [hlen]
  have hty : Models.shardMaxTokens c3shard.type = 500 := rfl
  rw [hty]
  norm_num

namespace ValidateStorage

/-- Default collection names from `validate_storage.py` (env defaults). -/
def COLLECTIONS_TO_CHECK : List String :=
  ["bmad-knowledge", "bmad-best-practices", "agent-memory"]

/-- `REQUIRED_FIELDS` from `validate_storage.py`. -/
def REQUIRED_FIELDS : List String :=
  ["unique_id", "type", "component", "importance", "created_at", "agent", "group_id"]

/-- `VALID_TYPES` from `validate_storage.py` (nine types over three
collections). -/
def VALID_TYPES : List String :=
  ["architecture_decision",
   "agent_spec",
   "story_outcome",
   "error_pattern",
   "database_schema",
   "config_pattern",
   "integration_example",
   "best_practice",
   "chat_memory"]

/-- `VALID_IMPORTANCE` from `validate_storage.py`. -/
def VALID_IMPORTANCE : List String := ["critical", "high", "medium", "low"]

/-- Environment defaults `MIN_CONTENT_LENGTH = 100`, `MAX_CONTENT_LENGTH =
50000`, `MAX_TOKENS_PER_SHARD = 300`. -/
def MIN_CONTENT_LENGTH : Nat := 100

/-- Maximum raw-character content length (default 50000). -/
def MAX_CONTENT_LENGTH : Nat := 50000

/-- Maximum tokens per shard (default 300). -/
def MAX_TOKENS_PER_SHARD : Nat := 300

/-- `SIMILARITY_THRESHOLD` default `0.85`, exactly 85/100. -/
def SIMILARITY_THRESHOLD : ℚ := mkRat 85 100

/-- `estimate_tokens`: `len(text) // 4`. -/
def estimate_tokens (text : String) : Nat :=
  text.length / 4

/-- `validate_token_budget` from `validate_storage.py`. -/
def validate_token_budget (content : String) : Bool × List String :=
  let token_count := estimate_tokens content
  let messages : List String :=
    if MAX_TOKENS_PER_SHARD < token_count then
      [s!"Content exceeds max tokens per shard: {token_count} > {MAX_TOKENS_PER_SHARD}. Split into multiple shards."]
    else []
  (messages.isEmpty, messages)

/-- Character class `[a-zA-Z0-9_/\-\.]` of `FILE_LINE_PATTERN`. -/
def isFileRefChar (c : Char) : Bool :=
  c.isAlpha || c.isDigit || c == '_' || c == '/' || c == '-' || c == '.'

/-- The extension alternatives `(py|md|yaml|yml|sql|sh|js|ts|tsx|json)` of
`FILE_LINE_PATTERN`. -/
def fileExtensions : List String :=
  ["py", "md", "yaml", "yml", "sql", "sh", "js", "ts", "tsx", "json"]

/-- Strips a literal character sequence from the front of a list, returning
the remainder on success. -/
def dropLit : List Char → List Char → Option (List Char)
  | [], rest => some rest
  | _ :: _, [] => none
  | p :: ps, c :: cs => if c == p then dropLit ps cs else none

/-- After the literal dot of `FILE_LINE_PATTERN`: one extension alternative,
a colon and at least one digit. -/
def extColonDigit (cs : List Char) : Bool :=
  fileExtensions.any (fun e =>
    match dropLit e.toList cs with
    | some (c :: d :: _) => c == ':' && d.isDigit
    | _ => false)

/-- Scans for an occurrence of `FILE_LINE_PATTERN` =
`[a-zA-Z0-9_/\-\.]+\.(py|…|json):\d+(?:-\d+)?`.  A match of the full regex
exists in the text iff some position carries one class character, a literal
dot, an extension, a colon and one digit: the `+`-groups shrink to their
last (resp. first) element and the optional `-\d+` group never decides
existence.  This function tests exactly that minimal occurrence. -/
def hasFileLineRefAux : List Char → Bool
  | [] => false
  | c :: cs =>
    (isFileRefChar c &&
      (match cs with
       | d :: rest => d == '.' && extColonDigit rest
       | [] => false))
    || hasFileLineRefAux cs

/-- Python `FILE_LINE_PATTERN.findall(content)` is non-empty. -/
def hasFileLineRef (content : String) : Bool :=
  hasFileLineRefAux content.toList

/-- The `requires_file_refs` list of `validate_file_references`. -/
def requires_file_refs : List String :=
  ["story_outcome", "error_pattern", "integration_example", "config_pattern",
   "architecture_decision"]

/-- The hard-error message issued by `validate_file_references`. -/
def fileRefMessage (memory_type : String) : String :=
  s!"Missing file:line references. Type {sqc}{memory_type}{sqc} REQUIRES format: src/path/file.py:89-234. Add at least one reference to make memory actionable."

/-- `validate_file_references` from `validate_storage.py`. -/
def validate_file_references (content memory_type : String) : Bool × List String :=
  if memory_type ∉ requires_file_refs then (true, [])
  else
    let messages : List String :=
      if hasFileLineRef content then [] else [fileRefMessage memory_type]
    (messages.isEmpty, messages)

/-- The backtick character (avoids a literal backtick in source text). -/
def btChar : Char := Char.ofNat 96

/-- Triple backtick, the fence of a markdown code block. -/
def fenceStr : String := String.mk [btChar, btChar, btChar]

/-- Detects a leading triple backtick, returning the remainder. -/
def startsWithTriple : List Char → Option (List Char)
  | a :: b :: c :: rest =>
    if a == btChar && b == btChar && c == btChar then some rest else none
  | _ => none

/-- Non-greedy search for the closing fence of `[\s\S]*?` inside a fenced
block: returns the (shortest) body before the first closing triple backtick
and the remainder after it. -/
def splitAtTriple : List Char → Option (List Char × List Char)
  | [] => none
  | c :: cs =>
    match startsWithTriple (c :: cs) with
    | some rest => some ([], rest)
    | none =>
      match splitAtTriple cs with
      | some (body, rest) => some (c :: body, rest)
      | none => none

/-- The second regex alternative `` `[^`]+` ``: a backtick, one or more
non-backticks, a backtick. -/
def tryInline (c : Char) (cs : List Char) : Option (List Char × List Char) :=
  if c == btChar then
    let body := cs.takeWhile (fun x => !(x == btChar))
    if body.isEmpty then none
    else
      match cs.drop body.length with
      | d :: rest => if d == btChar then some (btChar :: (body ++ [btChar]), rest) else none
      | [] => none
  else none

/-- Left-to-right non-overlapping scan of ``` ```[\s\S]*?```|`[^`]+` ```,
i.e. Python `code_block_pattern.findall(content)`: at each position the
fenced alternative is tried first, then the inline alternative, then the
scan advances one character; after a match the scan resumes after it.  The
fuel argument (initialised to the text length) only bounds the recursion;
every step consumes at least one character, so it is never exhausted. -/
def scanCodeBlocksAux : Nat → List Char → List (List Char)
  | 0, _ => []
  | _, [] => []
  | fuel + 1, c :: cs =>
    match startsWithTriple (c :: cs) with
    | some rest3 =>
      match splitAtTriple rest3 with
      | some (body, rest') =>
        (btChar :: btChar :: btChar :: (body ++ [btChar, btChar, btChar]))
          :: scanCodeBlocksAux fuel rest'
      | none =>
        match tryInline c cs with
        | some (m, rest') => m :: scanCodeBlocksAux fuel rest'
        | none => scanCodeBlocksAux fuel cs
    | none =>
      match tryInline c cs with
      | some (m, rest') => m :: scanCodeBlocksAux fuel rest'
      | none => scanCodeBlocksAux fuel cs

/-- `code_block_pattern.findall(content)` as strings. -/
def findCodeBlocks (content : String) : List String :=
  (scanCodeBlocksAux content.toList.length content.toList).map String.mk

/-- `validate_code_snippets` from `validate_storage.py`: counts, per code
block, the lines whose strip is non-empty and does not start with a fence;
more than ten such lines yields a warning.  Always passes (warnings only). -/
def validate_code_snippets (content : String) : Bool × List String :=
  let warnings : List String := (findCodeBlocks content).foldl
    (fun acc block =>
      let lines := pySplit (Char.ofNat 10) block
      let line_count : Nat :=
        (lines.filter (fun l => !(pyStrip l == "") && !(pyStartsWith (pyStrip l) fenceStr))).length
      if 10 < line_count then
        acc ++ [s!"Code snippet has {line_count} lines. Optimal: 3-10 lines for quick comprehension. Consider reducing or linking to full file."]
      else acc)
    []
  (true, warnings)

/-- The `^\d{4}-\d{2}-\d{2}` leading-ISO-date check
(`re.match` anchors at the start of the string). -/
def isoDateLead (s : String) : Bool :=
  match s.toList with
  | a :: b :: c :: d :: h1 :: e :: f :: h2 :: g :: i :: _ =>
    a.isDigit && b.isDigit && c.isDigit && d.isDigit && h1 == '-' &&
      e.isDigit && f.isDigit && h2 == '-' && g.isDigit && i.isDigit
  | _ => false

/-- The placeholder markers of `validate_content_quality`. -/
def PLACEHOLDERS : List String := ["TODO", "FIXME", "TBD", "[INSERT", "[PLACEHOLDER"]

/-- `validate_content_quality` from `validate_storage.py`. -/
def validate_content_quality (content : String) : Bool × List String :=
  let n := content.length
  let m1 : List String :=
    if n < MIN_CONTENT_LENGTH then
      [s!"Content too short ({n} chars). Minimum {MIN_CONTENT_LENGTH} chars for meaningful knowledge."]
    else []
  let m2 : List String :=
    if MAX_CONTENT_LENGTH < n then
      [s!"Content too long ({n} chars). Maximum {MAX_CONTENT_LENGTH} chars. Consider splitting."]
    else []
  let m3 := (PLACEHOLDERS.filter (fun p => strContains (pyUpper content) p)).map
    (fun p => s!"Content contains placeholder text: {sqc}{p}{sqc}")
  let messages := m1 ++ m2 ++ m3
  (messages.isEmpty, messages)

/-- `validate_metadata_fields` from `validate_storage.py`. -/
def validate_metadata_fields (metadata : Metadata) : Bool × List String :=
  let missing := REQUIRED_FIELDS.filter (fun f => !mhas metadata f)
  let e1 : List String :=
    if missing.isEmpty then [] else ["Missing required fields: " ++ pyListRepr missing]
  let entry_type := mgetD metadata "type"
  let e2 : List String :=
    if entry_type ≠ "" ∧ entry_type ∉ VALID_TYPES then
      [s!"Invalid type {sqc}{entry_type}{sqc}. Must be one of: " ++ pyListRepr VALID_TYPES]
    else []
  let importance := mgetD metadata "importance"
  let e3 : List String :=
    if importance ≠ "" ∧ importance ∉ VALID_IMPORTANCE then
      [s!"Invalid importance {sqc}{importance}{sqc}. Must be: " ++ pyListRepr VALID_IMPORTANCE]
    else []
  let unique_id := mgetD metadata "unique_id"
  let e4 : List String :=
    if unique_id ≠ "" ∧ unique_id.length < 5 then
      [s!"unique_id {sqc}{unique_id}{sqc} too short (min 5 characters)"]
    else []
  let created_at := mgetD metadata "created_at"
  let e5 : List String :=
    if created_at ≠ "" ∧ isoDateLead created_at = false then
      [s!"created_at {sqc}{created_at}{sqc} must be ISO 8601 format (YYYY-MM-DD)"]
    else []
  let agent := mgetD metadata "agent"
  let e6 : List String :=
    if agent = "" then ["Missing agent field - required for all memory types"] else []
  let group_id := mgetD metadata "group_id"
  let e7 : List String :=
    if group_id = "" then ["Missing group_id field - required for multitenancy"] else []
  let errors := e1 ++ e2 ++ e3 ++ e4 ++ e5 ++ e6 ++ e7
  (errors.isEmpty, errors)

end ValidateStorage

namespace ValidateStorage

/-- The ambient Qdrant collaborator as seen by `validate_storage.py`:
`clientOk`/`clientErr` model the outcome of `get_qdrant_client()`, and
`scroll` models `client.scroll(collection_name=…, limit=500, …)` per
collection — `Except.error` is an exception raised by the lookup. -/
structure VStore where
  clientOk : Bool
  clientErr : String := ""
  scroll : String → Except String (List QPoint)

/-- The collection loop of `check_duplicate_unique_id`: first match wins
(the Python function returns from inside the loop); a collection whose
scroll raises is skipped (the source only prints a warning). -/
def scanForUniqueId (client : VStore) (unique_id : String) : List String → Bool × String
  | [] => (false, s!"{sqc}{unique_id}{sqc} is available")
  | coll :: rest =>
    match client.scroll coll with
    | Except.ok points =>
      match points.find? (fun point => point.payloadD.unique_id == unique_id) with
      | some point =>
        let pid := toString point.id
        (true, s!"DUPLICATE: {sqc}{unique_id}{sqc} already exists in {sqc}{coll}{sqc} (point_id: {pid})")
      | none => scanForUniqueId client unique_id rest
    | Except.error _ => scanForUniqueId client unique_id rest

/-- `check_duplicate_unique_id` from `validate_storage.py`. -/
def check_duplicate_unique_id (client : VStore) (unique_id : String) : Bool × String :=
  if unique_id = "" then (false, "No unique_id to check")
  else scanForUniqueId client unique_id COLLECTIONS_TO_CHECK

/-- An entry of the `similar` list built by `check_similar_content`. -/
structure SimEntry where
  collection : String
  unique_id : String
  match_type : String
  similarity : ℚ
  deriving DecidableEq, Repr

/-- `check_similar_content` from `validate_storage.py`: stage 1 exact-hash
scan over all collections (`except Exception: pass` silently skips failing
collections); the semantic stage is a comment in the source ("would go
here"). -/
def check_similar_content (client : VStore) (content : String) : Bool × List SimEntry :=
  let content_hash := sha256Hex content
  let similar := COLLECTIONS_TO_CHECK.foldl
    (fun (acc : List SimEntry) coll =>
      match client.scroll coll with
      | Except.ok points =>
        acc ++ (points.filter (fun point => point.payloadD.content_hash == content_hash)).map
          (fun point =>
            { collection := coll,
              unique_id := point.payloadD.unique_id,
              match_type := "exact_hash",
              similarity := 1 })
      | Except.error _ => acc)
    []
  (!similar.isEmpty, similar)

/-- The structured `details` object of `validate_before_storage`. -/
structure SDetails where
  errors : List String
  warnings : List String
  content_hash : String
  token_count : Nat
  checks_performed : List String
  deriving DecidableEq, Repr

/-- The result-message tail of `validate_before_storage`: verdict false with
a failure message when the error list is non-empty, verdict true (with or
without a warnings message) otherwise. -/
def buildResult (errors warnings : List String) (content_hash : String)
    (token_count : Nat) (checks_performed : List String) : Bool × String × SDetails :=
  let details : SDetails :=
    { errors := errors, warnings := warnings, content_hash := content_hash,
      token_count := token_count, checks_performed := checks_performed }
  if errors.isEmpty then
    if warnings.isEmpty then (true, "VALIDATION PASSED", details)
    else
      (true,
        "VALIDATION PASSED with warnings:\n" ++
          String.intercalate "\n" (warnings.map (fun w => "  - " ++ w)),
        details)
  else
    (false,
      "VALIDATION FAILED:\n" ++
        String.intercalate "\n" (errors.map (fun e => "  - " ++ e)) ++
        (if warnings.isEmpty then ""
         else "\n\nWarnings:\n" ++ String.intercalate "\n" (warnings.map (fun w => "  - " ++ w))),
      details)

/-- The message appended for each similar-content entry at or above the
similarity threshold. -/
def simDupMessage (entry : SimEntry) : String :=
  let s := entry.similarity
  let u := entry.unique_id
  let c := entry.collection
  s!"DUPLICATE: Similar content found (similarity: {s}): {u} in {c}"

/-- `validate_before_storage` from `validate_storage.py`.  Stages run in
source order (metadata fields, file references, token budget, code
snippets, content quality, then — unless skipped and when the client is
available — duplicate unique-id and similar-content); per-stage findings are
concatenated exactly as the Python `extend` calls do.  The ambient client
is passed explicitly. -/
def validate_before_storage (information : String) (metadata : Metadata)
    (skip_duplicate_check skip_similarity_check : Bool) (client : VStore) :
    Bool × String × SDetails :=
  let content_hash := sha256Hex information
  let token_count := estimate_tokens information
  let mres := validate_metadata_fields metadata
  let errors1 := if mres.1 then [] else mres.2
  let fres := validate_file_references information (mgetD metadata "type")
  let errors2 := if fres.1 then [] else fres.2
  let tres := validate_token_budget information
  let errors3 := if tres.1 then [] else tres.2
  let cres := validate_code_snippets information
  let warnings4 := cres.2
  let qres := validate_content_quality information
  let warnings5 := if qres.1 then [] else qres.2
  let checksBase := ["metadata_fields", "file_references", "token_budget",
                     "code_snippets", "content_quality"]
  let errorsBase := errors1 ++ errors2 ++ errors3
  let warningsBase := warnings4 ++ warnings5
  if skip_duplicate_check then
    buildResult errorsBase warningsBase content_hash token_count checksBase
  else if client.clientOk then
    let dres := check_duplicate_unique_id client (mgetD metadata "unique_id")
    let errors6 := if dres.1 then [dres.2] else []
    if skip_similarity_check then
      buildResult (errorsBase ++ errors6) warningsBase content_hash token_count
        (checksBase ++ ["duplicate_unique_id"])
    else
      let sres := check_similar_content client information
      let errors7 :=
        if sres.1 then
          (sres.2.filter (fun entry => SIMILARITY_THRESHOLD ≤ entry.similarity)).map
            simDupMessage
        else []
      buildResult (errorsBase ++ errors6 ++ errors7) warningsBase content_hash token_count
        (checksBase ++ ["duplicate_unique_id", "similar_content"])
  else
    buildResult errorsBase
      (warningsBase ++ [s!"Qdrant unavailable ({client.clientErr}) - skipping duplicate check"])
      content_hash token_count checksBase

theorem buildResult_fst_false (errors warnings : List String) (ch : String)
    (tc : Nat) (cks : List String) (h : errors ≠ []) :
    (buildResult errors warnings ch tc cks).1 = false := by
  cases errors with
  | nil => exact absurd rfl h
  | cons e es => simp [buildResult]

theorem buildResult_fst_true (errors warnings : List String) (ch : String)
    (tc : Nat) (cks : List String) (h : errors = []) :
    (buildResult errors warnings ch tc cks).1 = true := by
  subst h
  by_cases hw : warnings.isEmpty <;> simp [buildResult, hw]

end ValidateStorage

namespace ValidateStorage

theorem buildResult_snd (errors warnings : List String) (ch : String)
    (tc : Nat) (cks : List String) :
    (buildResult errors warnings ch tc cks).2.2 =
      { errors := errors, warnings := warnings, content_hash := ch,
        token_count := tc, checks_performed := cks } := by
  simp only [buildResult]
  split_ifs <;> rfl

end ValidateStorage

/-- C6: for every content string and memory type, if the type is one of the
five actionable types and the content has no `FILE_LINE_PATTERN` occurrence,
`validate_file_references` records the hard error naming the required
format, and the pipeline verdict of `validate_before_storage` is false for
any metadata carrying that type (in particular metadata that is otherwise
valid), any client and any skip flags; the same content produces no
file-reference error for a type outside the actionable subset. -/
theorem c6_location_reference (content mtype : String) (metadata : Metadata) :
    (mtype ∈ ValidateStorage.requires_file_refs →
      ValidateStorage.hasFileLineRef content = false →
        ValidateStorage.validate_file_references content mtype
            = (false, [ValidateStorage.fileRefMessage mtype])
        ∧ (mgetD metadata "type" = mtype →
            ∀ (client : ValidateStorage.VStore) (sd ss : Bool),
              (ValidateStorage.validate_before_storage content metadata sd ss client).1
                = false))
    ∧ (mtype ∉ ValidateStorage.requires_file_refs →
        ValidateStorage.validate_file_references content mtype = (true, [])) := by
  constructor
  · intro hmem href
    have hval : ValidateStorage.validate_file_references content mtype
        = (false, [ValidateStorage.fileRefMessage mtype]) := by
      simp [ValidateStorage.validate_file_references, hmem, href]
    refine ⟨hval, ?_⟩
    intro hty client sd ss
    simp only [ValidateStorage.validate_before_storage, hty, hval]
    cases sd <;> cases ss <;> cases hco : client.clientOk <;>
      simp only [hco, Bool.false_eq_true, if_true, if_false, ite_true, ite_false,
        Prod.fst, Prod.snd] <;>
      (apply ValidateStorage.buildResult_fst_false; simp [List.append_eq_nil])
  · intro hmem
    simp [ValidateStorage.validate_file_references, hmem]

/-- Content used in the C6 witness: no path-colon-line substring at all. -/
def c6content : String :=
  "the retry logic was reworked to use exponential backoff with jitter"

/-- Otherwise-valid metadata of actionable type `story_outcome` for the C6
witness. -/
def c6meta : Metadata :=
  [("unique_id", "story-2-17-001"), ("type", "story_outcome"),
   ("component", "memory"), ("importance", "high"),
   ("created_at", "2026-01-04"), ("agent", "dev"), ("group_id", "demo-group")]

/-- Client with empty collections for the C6 witness. -/
def c6client : ValidateStorage.VStore :=
  { clientOk := true, scroll := fun _ => Except.ok [] }

/-- Witness for C6: refless content of actionable type `story_outcome` fails
the file-reference check and the whole pipeline verdict, while the same
content passes the check under the non-actionable type `best_practice`. -/
theorem c6_location_reference_witness :
    ValidateStorage.validate_file_references c6content "story_outcome"
        = (false, [ValidateStorage.fileRefMessage "story_outcome"])
    ∧ (ValidateStorage.validate_before_storage c6content c6meta false false c6client).1 = false
    ∧ ValidateStorage.validate_file_references c6content "best_practice" = (true, []) := by
  have h1 := (c6_location_reference c6content "story_outcome" c6meta).1
    (by decide) (by decide)
  have h2 := (c6_location_reference c6content "best_practice" c6meta).2 (by decide)
  exact ⟨h1.1, h1.2 rfl c6client false false, h2⟩

/-- C10: content-quality findings (too short, too long, placeholder markers)
are appended to the warnings list, never to the errors list: whenever the
metadata fields validate, the file-reference check passes, the token count
is within the per-shard ceiling, the client is available and the duplicate
checks find nothing, the verdict is pass, the error list is empty, and the
warnings are exactly the code-snippet warnings followed by the
content-quality findings. -/
theorem c10_quality_findings_nonblocking (information : String) (metadata : Metadata)
    (client : ValidateStorage.VStore)
    (hm : ValidateStorage.validate_metadata_fields metadata = (true, []))
    (hf : ValidateStorage.validate_file_references information (mgetD metadata "type")
        = (true, []))
    (ht : ValidateStorage.estimate_tokens information ≤ ValidateStorage.MAX_TOKENS_PER_SHARD)
    (hc : client.clientOk = true)
    (hd : (ValidateStorage.check_duplicate_unique_id client (mgetD metadata "unique_id")).1
        = false)
    (hs : (ValidateStorage.check_similar_content client information).1 = false) :
    (ValidateStorage.validate_before_storage information metadata false false client).1 = true
    ∧ (ValidateStorage.validate_before_storage information metadata false false client).2.2.errors
        = []
    ∧ (ValidateStorage.validate_before_storage information metadata false false client).2.2.warnings
        = (ValidateStorage.validate_code_snippets information).2
          ++ (if (ValidateStorage.validate_content_quality information).1 then []
              else (ValidateStorage.validate_content_quality information).2) := by
  have htb : ValidateStorage.validate_token_budget information = (true, []) := by
    simp [ValidateStorage.validate_token_budget, Nat.not_lt.mpr ht]
  simp only [ValidateStorage.validate_before_storage, hm, hf, htb, hc, hd, hs,
    Bool.false_eq_true, if_true, if_false, ite_true, ite_false, Prod.fst, Prod.snd]
  simp [ValidateStorage.buildResult_fst_true, ValidateStorage.buildResult_snd]

/-- Content for the C10 witness: short (31 characters) and containing a
placeholder marker, so the content-quality check produces findings. -/
def c10content : String := "TODO: fill in the details later"

/-- Valid metadata of non-actionable type `best_practice` for the C10
witness. -/
def c10meta : Metadata :=
  [("unique_id", "bp-2026-001"), ("type", "best_practice"),
   ("component", "memory"), ("importance", "high"),
   ("created_at", "2026-01-04"), ("agent", "dev"), ("group_id", "demo-group")]

/-- Client with empty collections for the C10 witness. -/
def c10client : ValidateStorage.VStore :=
  { clientOk := true, scroll := fun _ => Except.ok [] }

/-- Witness for C10: the short, placeholder-bearing submission passes with
its quality findings in the warnings list. -/
theorem c10_quality_findings_nonblocking_witness :
    (ValidateStorage.validate_before_storage c10content c10meta false false c10client).1 = true :=
  (c10_quality_findings_nonblocking c10content c10meta c10client rfl rfl (by decide)
    rfl rfl rfl).1

namespace ValidateMetadata

/-- `REQUIRED_FIELDS` from `validate_metadata.py`. -/
def REQUIRED_FIELDS : List String :=
  ["unique_id", "type", "component", "importance", "created_at", "agent", "group_id"]

/-- `VALID_TYPES` from `validate_metadata.py` (nine types over three
collections). -/
def VALID_TYPES : List String :=
  ["architecture_decision",
   "agent_spec",
   "story_outcome",
   "error_pattern",
   "database_schema",
   "config_pattern",
   "integration_example",
   "best_practice",
   "chat_memory"]

/-- `VALID_IMPORTANCE` from `validate_metadata.py`. -/
def VALID_IMPORTANCE : List String := ["critical", "high", "medium", "low"]

/-- `VALID_AGENTS` from `validate_metadata.py`. -/
def VALID_AGENTS : List String :=
  ["architect", "analyst", "pm", "dev", "tea", "tech-writer", "ux-designer",
   "quick-flow-solo-dev", "sm"]

/-- `MAX_JSON_DEPTH` from `validate_metadata.py`. -/
def MAX_JSON_DEPTH : Nat := 100

/-- `MAX_JSON_SIZE` from `validate_metadata.py` (1 MB). -/
def MAX_JSON_SIZE : Nat := 1000000

/-- `json.dumps(metadata)` for flat string-valued metadata with the default
separators (escaping of special characters is not needed for the inputs
considered here). -/
def jsonDumps (metadata : Metadata) : String :=
  "\x7b" ++
    String.intercalate ", "
      (metadata.map (fun p => "\"" ++ p.1 ++ "\": \"" ++ p.2 ++ "\"")) ++
  "\x7d"

/-- `validate_json_safety` from `validate_metadata.py`, on flat string-valued
metadata: every value is a scalar, so the recursion visits only depth 1 and
the `MAX_JSON_DEPTH = 100` bound can never be exceeded; the check always
succeeds on such input. -/
def validate_json_safety (_metadata : Metadata) : Bool × List String :=
  (true, [])

/-- `validate_required_fields` from `validate_metadata.py`. -/
def validate_required_fields (metadata : Metadata) : Bool × List String :=
  let missing := REQUIRED_FIELDS.filter (fun f => !mhas metadata f)
  let errors : List String :=
    if missing.isEmpty then []
    else ["Missing required fields: " ++ String.intercalate ", " missing]
  (errors.isEmpty, errors)

/-- `validate_type` from `validate_metadata.py` (no empty-string guard: a
missing type is also reported invalid). -/
def validate_type (metadata : Metadata) : Bool × List String :=
  let memory_type := mgetD metadata "type"
  let errors : List String :=
    if memory_type ∉ VALID_TYPES then
      [s!"Invalid type {sqc}{memory_type}{sqc}. Must be one of: "
        ++ String.intercalate ", " VALID_TYPES]
    else []
  (errors.isEmpty, errors)

/-- `validate_importance` from `validate_metadata.py`. -/
def validate_importance (metadata : Metadata) : Bool × List String :=
  let importance := mgetD metadata "importance"
  let errors : List String :=
    if importance ∉ VALID_IMPORTANCE then
      [s!"Invalid importance {sqc}{importance}{sqc}. Must be: "
        ++ String.intercalate ", " VALID_IMPORTANCE]
    else []
  (errors.isEmpty, errors)

/-- `validate_agent` from `validate_metadata.py`. -/
def validate_agent (metadata : Metadata) : Bool × List String :=
  let agent := mgetD metadata "agent"
  let errors : List String :=
    if agent = "" then ["Missing agent field - required for all memory types"]
    else if agent ∉ VALID_AGENTS then
      [s!"Invalid agent {sqc}{agent}{sqc}. Must be one of: "
        ++ String.intercalate ", " VALID_AGENTS]
    else []
  (errors.isEmpty, errors)

/-- `validate_group_id` from `validate_metadata.py`. -/
def validate_group_id (metadata : Metadata) : Bool × List String :=
  let group_id := mgetD metadata "group_id"
  let errors : List String :=
    if group_id = "" then ["Missing group_id field - required for multitenancy"]
    else if group_id.length < 3 then
      [s!"group_id {sqc}{group_id}{sqc} too short (min 3 characters)"]
    else []
  (errors.isEmpty, errors)

/-- The `expected_prefixes` table of `validate_unique_id`
(`expected_prefixes.get(memory_type, [])`). -/
def expectedPrefixesFor (memory_type : String) : List String :=
  if memory_type = "architecture_decision" then ["arch-", "arch-decision-"]
  else if memory_type = "agent_spec" then ["agent-"]
  else if memory_type = "story_outcome" then ["story-"]
  else if memory_type = "error_pattern" then ["error-"]
  else if memory_type = "database_schema" then ["schema-"]
  else if memory_type = "config_pattern" then ["config-"]
  else if memory_type = "integration_example" then ["integration-"]
  else if memory_type = "best_practice" then ["bp-"]
  else if memory_type = "chat_memory" then ["chat-"]
  else []

/-- The advisory message of `validate_unique_id` for an id that does not
carry the expected type prefix.  Note that for type `error_pattern` the
message text necessarily contains `error_pattern` and `error-`. -/
def prefixAdvisoryMessage (unique_id memory_type : String) : String :=
  s!"unique_id {sqc}{unique_id}{sqc} doesn{sqc}t follow expected format for {sqc}{memory_type}{sqc}. Expected prefix: "
    ++ String.intercalate " or " (expectedPrefixesFor memory_type)

/-- `validate_unique_id` from `validate_metadata.py`: hard errors (missing,
too short) and the soft prefix advisory are returned concatenated — errors
first, then warnings — and the boolean reflects errors only. -/
def validate_unique_id (metadata : Metadata) : Bool × List String :=
  let unique_id := mgetD metadata "unique_id"
  let memory_type := mgetD metadata "type"
  if unique_id = "" then (false, ["Missing unique_id field"])
  else
    let errors : List String :=
      if unique_id.length < 5 then
        [s!"unique_id {sqc}{unique_id}{sqc} too short (min 5 characters)"]
      else []
    let prefixes := expectedPrefixesFor memory_type
    let warnings : List String :=
      if !prefixes.isEmpty && !(prefixes.any (fun p => pyStartsWith unique_id p)) then
        [prefixAdvisoryMessage unique_id memory_type]
      else []
    (errors.isEmpty, errors ++ warnings)

/-- `validate_created_at` from `validate_metadata.py` (same leading-ISO-date
pattern as in `validate_storage.py`). -/
def validate_created_at (metadata : Metadata) : Bool × List String :=
  let created_at := mgetD metadata "created_at"
  if created_at = "" then (false, ["Missing created_at field"])
  else
    let errors : List String :=
      if ValidateStorage.isoDateLead created_at then []
      else [s!"created_at {sqc}{created_at}{sqc} must be ISO 8601 format (YYYY-MM-DD)"]
    (errors.isEmpty, errors)

/-- `validate_component` from `validate_metadata.py`. -/
def validate_component (metadata : Metadata) : Bool × List String :=
  let component := mgetD metadata "component"
  let errors : List String :=
    if component = "" then ["Missing component field"]
    else if component.length < 2 then
      [s!"component {sqc}{component}{sqc} too short (min 2 characters)"]
    else []
  (errors.isEmpty, errors)

/-- The `details` object of `validate_metadata_complete`. -/
structure MDetails where
  errors : List String
  warnings : List String
  checks_performed : List String
  deriving DecidableEq, Repr

/-- The keyword test `validate_metadata_complete` uses to route each
`validate_unique_id` message: `"ERROR" in msg.upper() or "MISSING" in
msg.upper() or "TOO SHORT" in msg.upper()`. -/
def isErrorKeyword (msg : String) : Bool :=
  strContains (pyUpper msg) "ERROR" || strContains (pyUpper msg) "MISSING" ||
    strContains (pyUpper msg) "TOO SHORT"

/-- `validate_metadata_complete` from `validate_metadata.py`: the size check
aborts before anything else (the digit grouping of its Python byte-count
format is not reproduced), the depth check aborts next, then the field
validators run in source order; `validate_unique_id` messages are routed by
`isErrorKeyword` into errors or warnings. -/
def validate_metadata_complete (metadata : Metadata) : Bool × MDetails :=
  let json_str := jsonDumps metadata
  if MAX_JSON_SIZE < json_str.length then
    (false, { errors := [s!"Metadata too large. Maximum: {MAX_JSON_SIZE} bytes."],
              warnings := [], checks_performed := [] })
  else
    let jres := validate_json_safety metadata
    if jres.1 = false then
      (false, { errors := jres.2, warnings := [], checks_performed := ["json_safety"] })
    else
      let rres := validate_required_fields metadata
      let e1 := if rres.1 then [] else rres.2
      let tres := validate_type metadata
      let e2 := if tres.1 then [] else tres.2
      let ires := validate_importance metadata
      let e3 := if ires.1 then [] else ires.2
      let ares := validate_agent metadata
      let e4 := if ares.1 then [] else ares.2
      let gres := validate_group_id metadata
      let e5 := if gres.1 then [] else gres.2
      let ures := validate_unique_id metadata
      let uerrors := ures.2.filter (fun msg => isErrorKeyword msg)
      let uwarnings := ures.2.filter (fun msg => !isErrorKeyword msg)
      let cres := validate_created_at metadata
      let e7 := if cres.1 then [] else cres.2
      let pres := validate_component metadata
      let e8 := if pres.1 then [] else pres.2
      let errors := e1 ++ e2 ++ e3 ++ e4 ++ e5 ++ uerrors ++ e7 ++ e8
      let checks := ["json_safety", "required_fields", "type", "importance", "agent",
                     "group_id", "unique_id", "created_at", "component"]
      (errors.isEmpty,
        { errors := errors, warnings := uwarnings, checks_performed := checks })

end ValidateMetadata

/-- Metadata exhibiting the C8 code bug: every field is valid and the
`unique_id` has length 11 ≥ 5, but its prefix is not the `error-` expected
for type `error_pattern`. -/
def c8meta : Metadata :=
  [("unique_id", "wrong-12345"), ("type", "error_pattern"),
   ("component", "api"), ("importance", "high"),
   ("created_at", "2026-01-04"), ("agent", "dev"), ("group_id", "demo-group")]

set_option maxRecDepth 100000 in
/-- C8 (code bug): `validate_unique_id` itself treats the prefix mismatch as
non-blocking (it validates with only the advisory message), but the keyword
routing of `validate_metadata_complete` matches `ERROR` inside the advisory
text (the interpolated type `error_pattern` and expected prefix `error-`),
files the advisory under errors with an empty warnings list, and fails the
verdict — contradicting the claim (and the validator's own intent) that the
prefix check is a soft advisory that never blocks. -/
theorem c8_prefix_advisory_blocks :
    ValidateMetadata.validate_unique_id c8meta
        = (true, [ValidateMetadata.prefixAdvisoryMessage "wrong-12345" "error_pattern"])
    ∧ (ValidateMetadata.validate_metadata_complete c8meta).1 = false
    ∧ (ValidateMetadata.validate_metadata_complete c8meta).2.errors
        = [ValidateMetadata.prefixAdvisoryMessage "wrong-12345" "error_pattern"]
    ∧ (ValidateMetadata.validate_metadata_complete c8meta).2.warnings = [] := by
  refine ⟨rfl, rfl, rfl, rfl⟩

/-- C9 counterexample: the data model's accepted type set differs from the
validators' nine-member `VALID_TYPES` list — `session_summary` is accepted
by `MemoryShard`'s `MemoryType` but invalid for the metadata validator, so
the three sets are not all equal as the claim states. -/
theorem c9_counterexample :
    "session_summary" ∈ Models.MemoryType
      ∧ "session_summary" ∉ ValidateMetadata.VALID_TYPES
      ∧ "session_summary" ∉ ValidateStorage.VALID_TYPES := by
  refine ⟨by decide, by decide, by decide⟩

/-- C9 (amended): the two validators share one nine-member `VALID_TYPES`
list, but the data model's `MemoryType` set has eleven members and differs
from it — it adds `requirement`, `implementation_detail`, `test_strategy`,
`lesson_learned`, `decision_rationale` and `session_summary` while lacking
`agent_spec`, `database_schema`, `config_pattern` and
`integration_example`. -/
theorem c9_type_lists :
    ValidateMetadata.VALID_TYPES = ValidateStorage.VALID_TYPES
    ∧ Models.MemoryType.length = 11
    ∧ ValidateMetadata.VALID_TYPES.length = 9
    ∧ Models.MemoryType ≠ ValidateMetadata.VALID_TYPES
    ∧ "agent_spec" ∈ ValidateMetadata.VALID_TYPES
    ∧ "agent_spec" ∉ Models.MemoryType := by
  refine ⟨rfl, rfl, rfl, by decide, by decide, by decide⟩

namespace CheckDuplicates

/-- Default collection names from `check_duplicates.py` (env defaults). -/
def COLLECTIONS_TO_CHECK : List String :=
  ["bmad-knowledge", "bmad-best-practices", "agent-memory"]

/-- `SIMILARITY_THRESHOLD` default `0.85`, exactly 85/100. -/
def SIMILARITY_THRESHOLD : ℚ := mkRat 85 100

/-- A point returned by `client.query_points`: similarity `score`, point
`id` and optional payload. -/
structure QueryResult where
  score : ℚ
  id : Nat
  payload : Option QPayload
  deriving DecidableEq, Repr

/-- Reads of `result.payload or {}` in `check_semantic_duplicate`. -/
def QueryResult.payloadD (r : QueryResult) : QPayload :=
  r.payload.getD {}

/-- The collaborators of `check_duplicates.py`: `clientOk`/`clientErr`
model `get_qdrant_client()`, `modelOk`/`modelErr` model
`get_embedding_model()`, `scroll` models `client.scroll(collection, 500, …)`
per collection, `encode` models `model.encode(content).tolist()` (which the
source wraps in a try/except), and `query_points` models
`client.query_points(collection, embedding, 5)`.  An `Except.error` carries
the text of the exception raised by the call. -/
structure DupStore where
  clientOk : Bool
  clientErr : String := ""
  scroll : String → Except String (List QPoint)
  modelOk : Bool
  modelErr : String := ""
  encode : String → Except String (List ℚ)
  query_points : String → List ℚ → Except String (List QueryResult)

/-- `generate_content_hash` from `check_duplicates.py`. -/
def generate_content_hash (content : String) : String :=
  sha256Hex content

/-- An entry of the `duplicates`/`similar` lists of `check_duplicates.py`. -/
structure Finding where
  collection : String
  unique_id : String
  mtype : String
  match_type : String
  similarity : ℚ
  point_id : Nat
  deriving DecidableEq, Repr

/-- The `"not found" in str(e).lower()` test that distinguishes a missing
collection from other lookup failures. -/
def notFoundIn (e : String) : Bool :=
  strContains (pyLower e) "not found"

/-- The stderr warning `f"Warning: Could not check {coll_name}: {e}"`. -/
def warnLine (coll e : String) : String :=
  s!"Warning: Could not check {coll}: {e}"

/-- `check_hash_duplicate` from `check_duplicates.py`: scans every
collection for a stored `content_hash` equal to the candidate digest; a
collection whose scroll raises a non-"not found" exception contributes a
stderr warning (the log component) and nothing else. -/
def check_hash_duplicate (store : DupStore) (content_hash : String) :
    (Bool × List Finding) × List String :=
  let r := COLLECTIONS_TO_CHECK.foldl
    (fun (acc : List Finding × List String) coll =>
      match store.scroll coll with
      | Except.ok points =>
        (acc.1 ++ (points.filter (fun p => p.payloadD.content_hash == content_hash)).map
          (fun p =>
            { collection := coll, unique_id := p.payloadD.unique_id,
              mtype := p.payloadD.mtype, match_type := "exact_hash",
              similarity := 1, point_id := p.id }),
         acc.2)
      | Except.error e =>
        if notFoundIn e then acc else (acc.1, acc.2 ++ [warnLine coll e]))
    ([], [])
  ((!r.1.isEmpty, r.1), r.2)

/-- The `similar.append({...})` record of `check_semantic_duplicate`. -/
def semanticFinding (coll : String) (r : QueryResult) : Finding :=
  { collection := coll, unique_id := r.payloadD.unique_id,
    mtype := r.payloadD.mtype, match_type := "semantic",
    similarity := r.score, point_id := r.id }

/-- `check_semantic_duplicate` from `check_duplicates.py`: embed the
candidate (an encode failure is caught and returns no findings with a
stderr warning), then query each collection's top-5 neighbours and flag
every result whose score is `>= SIMILARITY_THRESHOLD`. -/
def check_semantic_duplicate (store : DupStore) (content : String) :
    (Bool × List Finding) × List String :=
  match store.encode content with
  | Except.error e => ((false, []), [s!"Warning: Could not generate embedding: {e}"])
  | Except.ok query_embedding =>
    let r := COLLECTIONS_TO_CHECK.foldl
      (fun (acc : List Finding × List String) coll =>
        match store.query_points coll query_embedding with
        | Except.ok results =>
          (acc.1 ++ (results.filter
              (fun res => decide (SIMILARITY_THRESHOLD ≤ res.score))).map
            (semanticFinding coll),
           acc.2)
        | Except.error e =>
          if notFoundIn e then acc else (acc.1, acc.2 ++ [warnLine coll e]))
      ([], [])
    ((!r.1.isEmpty, r.1), r.2)

/-- The record returned for a `unique_id` collision. -/
structure UniqueEntry where
  collection : String
  unique_id : String
  mtype : String
  point_id : Nat
  deriving DecidableEq, Repr

/-- The collection loop of `check_unique_id_collision`: the Python function
returns from inside the loop at the first match, so later collections are
not scanned (and contribute no log lines). -/
def scanUniqueId (store : DupStore) (unique_id : String) :
    List String → (Bool × Option UniqueEntry) × List String
  | [] => ((false, none), [])
  | coll :: rest =>
    match store.scroll coll with
    | Except.ok points =>
      match points.find? (fun p => p.payloadD.unique_id == unique_id) with
      | some p =>
        ((true, some { collection := coll, unique_id := unique_id,
                       mtype := p.payloadD.mtype, point_id := p.id }), [])
      | none => scanUniqueId store unique_id rest
    | Except.error e =>
      let r := scanUniqueId store unique_id rest
      if notFoundIn e then r else (r.1, warnLine coll e :: r.2)

/-- `check_unique_id_collision` from `check_duplicates.py`. -/
def check_unique_id_collision (store : DupStore) (unique_id : String) :
    (Bool × Option UniqueEntry) × List String :=
  if unique_id = "" then ((false, none), [])
  else scanUniqueId store unique_id COLLECTIONS_TO_CHECK

/-- The `details` dictionary of `check_for_duplicates`; `error` and
`warnings` model the keys that are only set on client/model failure. -/
structure DupDetails where
  content_hash : String
  duplicates : List Finding
  similar : List Finding
  unique_id_collision : Option UniqueEntry
  checks_performed : List String
  error : Option String := none
  warnings : Option (List String) := none
  deriving DecidableEq, Repr

/-- `check_for_duplicates` from `check_duplicates.py`: hash check first,
then — only if the caller did not opt out AND the hash check found nothing —
the semantic check (skipped with a `warnings` entry when the embedding
model is unavailable), then the `unique_id` collision check when a
non-empty id was supplied.  `checks_performed` records the stages in
exactly that execution order. -/
def check_for_duplicates (store : DupStore) (content : String)
    (unique_id : Option String) (skip_semantic : Bool) :
    (Bool × DupDetails) × List String :=
  let base : DupDetails :=
    { content_hash := generate_content_hash content, duplicates := [],
      similar := [], unique_id_collision := none, checks_performed := [] }
  if store.clientOk = false then
    ((false, { base with error := some s!"Qdrant unavailable: {store.clientErr}" }), [])
  else
    let hres := check_hash_duplicate store base.content_hash
    let is_dup := hres.1.1
    let d1 : DupDetails := { base with
      checks_performed := ["content_hash"],
      duplicates := if is_dup then hres.1.2 else [] }
    let step2 : DupDetails × List String :=
      if !skip_semantic && !is_dup then
        if store.modelOk then
          let sres := check_semantic_duplicate store content
          ({ d1 with
              checks_performed := d1.checks_performed ++ ["semantic_similarity"],
              similar := if sres.1.1 then sres.1.2 else [] },
           sres.2)
        else
          ({ d1 with warnings := some [s!"Semantic check skipped: {store.modelErr}"] }, [])
      else (d1, [])
    let d2 := step2.1
    let uidTruthy := match unique_id with
      | some u => !(u == "")
      | none => false
    let step3 : DupDetails × List String :=
      if uidTruthy then
        let ures := check_unique_id_collision store (unique_id.getD "")
        ({ d2 with
            checks_performed := d2.checks_performed ++ ["unique_id_collision"],
            unique_id_collision := if ures.1.1 then ures.1.2 else none },
         ures.2)
      else (d2, [])
    let d3 := step3.1
    let duplicates_found := !d3.duplicates.isEmpty || d3.unique_id_collision.isSome
    ((duplicates_found, d3), hres.2 ++ step2.2 ++ step3.2)

end CheckDuplicates

/-- Store with an available client and embedding model and empty
collections, used by the C1 theorems. -/
def c1store : CheckDuplicates.DupStore :=
  { clientOk := true, scroll := fun _ => Except.ok [],
    modelOk := true, encode := fun _ => Except.ok [1],
    query_points := fun _ _ => Except.ok [] }

/-- C1 counterexample: with all three checks executed,
`check_for_duplicates` records the stages as hash → semantic-similarity →
identifier-collision, not in the claimed order hash → identifier-collision
→ semantic-similarity. -/
theorem c1_counterexample :
    (CheckDuplicates.check_for_duplicates c1store "hello" (some "story-2-17")
        false).1.2.checks_performed
      = ["content_hash", "semantic_similarity", "unique_id_collision"]
    ∧ ["content_hash", "semantic_similarity", "unique_id_collision"]
        ≠ ["content_hash", "unique_id_collision", "semantic_similarity"] := by
  exact ⟨rfl, by decide⟩

/-- C1 (amended): for one invocation with an available client and embedding
model and a non-empty identifier, the checks run in the fixed order hash →
semantic-similarity → identifier-collision, the semantic check is skipped
exactly when the caller opted out or the hash check already found a
duplicate, and `checks_performed` records the executed stages in that
order. -/
theorem c1_check_order (store : CheckDuplicates.DupStore) (content uid : String)
    (skip_semantic : Bool) (hc : store.clientOk = true) (hm : store.modelOk = true)
    (hu : uid ≠ "") :
    (CheckDuplicates.check_for_duplicates store content (some uid)
        skip_semantic).1.2.checks_performed
      = if skip_semantic = false
           ∧ (CheckDuplicates.check_hash_duplicate store
                (CheckDuplicates.generate_content_hash content)).1.1 = false
        then ["content_hash", "semantic_similarity", "unique_id_collision"]
        else ["content_hash", "unique_id_collision"] := by
  have huid : (uid == "") = false := by
    simpa using hu
  cases hskip : skip_semantic <;>
    cases hdup : (CheckDuplicates.check_hash_duplicate store
        (CheckDuplicates.generate_content_hash content)).1.1 <;>
      simp [CheckDuplicates.check_for_duplicates, hc, hm, huid, hdup]

/-- Witness for C1 (amended): with the semantic check opted out, the
recorded stages are hash then identifier-collision. -/
theorem c1_check_order_witness :
    (CheckDuplicates.check_for_duplicates c1store "x" (some "story-1-1")
        true).1.2.checks_performed
      = ["content_hash", "unique_id_collision"] := by
  have h := c1_check_order c1store "x" "story-1-1" true rfl rfl (by decide)
  simpa using h

/-- C2 store whose middle collection fails every lookup with the given
exception text (for both the scroll and the nearest-neighbour query);
client and model are available. -/
def c2storeF (e : String) : CheckDuplicates.DupStore :=
  { clientOk := true,
    scroll := fun coll =>
      if coll = "bmad-best-practices" then Except.error e else Except.ok [],
    modelOk := true,
    encode := fun _ => Except.ok [1],
    query_points := fun coll _ =>
      if coll = "bmad-best-practices" then Except.error e else Except.ok [] }

/-- C2 comparison store: the same as `c2storeF` except that the middle
collection is simply empty. -/
def c2storeE : CheckDuplicates.DupStore :=
  { clientOk := true, scroll := fun _ => Except.ok [],
    modelOk := true, encode := fun _ => Except.ok [1],
    query_points := fun _ _ => Except.ok [] }

/-- C2 counterexample: when the best-practices collection fails with a
connection error (not a missing-collection error), the verdict and the
whole returned details object are identical to those for an empty
collection — no check-skipped/unavailable condition is recorded anywhere in
the returned details; the failure is only printed as a stderr warning by
the hash check. -/
theorem c2_counterexample :
    (CheckDuplicates.check_for_duplicates (c2storeF "connection refused") "hello"
        (some "story-2-17") false).1
      = (CheckDuplicates.check_for_duplicates c2storeE "hello"
          (some "story-2-17") false).1
    ∧ (CheckDuplicates.check_hash_duplicate (c2storeF "connection refused")
          (CheckDuplicates.generate_content_hash "hello")).2
        = ["Warning: Could not check bmad-best-practices: connection refused"] := by
  exact ⟨rfl, rfl⟩

/-- C2 (amended): a lookup failure on one collection with any exception text
other than a collection-not-found error leaves the returned
verdict-and-details pair exactly equal to the one computed over an empty
collection — the failure is conflated with "no match" in the returned
details and surfaces only as a stderr warning line in the log. -/
theorem c2_lookup_failure_conflated (e content uid : String) (skip_semantic : Bool)
    (he : CheckDuplicates.notFoundIn e = false) (hu : uid ≠ "") :
    (CheckDuplicates.check_for_duplicates (c2storeF e) content (some uid)
        skip_semantic).1
      = (CheckDuplicates.check_for_duplicates c2storeE content (some uid)
          skip_semantic).1
    ∧ CheckDuplicates.warnLine "bmad-best-practices" e
        ∈ (CheckDuplicates.check_for_duplicates (c2storeF e) content (some uid)
            skip_semantic).2 := by
  have hhashF : CheckDuplicates.check_hash_duplicate (c2storeF e)
      (CheckDuplicates.generate_content_hash content)
        = ((false, []), [CheckDuplicates.warnLine "bmad-best-practices" e]) := by
    simp [CheckDuplicates.check_hash_duplicate, CheckDuplicates.COLLECTIONS_TO_CHECK,
      c2storeF, he]
  have hhashE : CheckDuplicates.check_hash_duplicate c2storeE
      (CheckDuplicates.generate_content_hash content) = ((false, []), []) := rfl
  have hsemF : CheckDuplicates.check_semantic_duplicate (c2storeF e) content
        = ((false, []), [CheckDuplicates.warnLine "bmad-best-practices" e]) := by
    simp [CheckDuplicates.check_semantic_duplicate, CheckDuplicates.COLLECTIONS_TO_CHECK,
      c2storeF, he]
  have hsemE : CheckDuplicates.check_semantic_duplicate c2storeE content
        = ((false, []), []) := rfl
  have huidF : CheckDuplicates.check_unique_id_collision (c2storeF e) uid
        = ((false, none), [CheckDuplicates.warnLine "bmad-best-practices" e]) := by
    simp [CheckDuplicates.check_unique_id_collision, CheckDuplicates.scanUniqueId,
      CheckDuplicates.COLLECTIONS_TO_CHECK, c2storeF, he, hu]
  have huidE : CheckDuplicates.check_unique_id_collision c2storeE uid
        = ((false, none), []) := by
    simp [CheckDuplicates.check_unique_id_collision, CheckDuplicates.scanUniqueId,
      CheckDuplicates.COLLECTIONS_TO_CHECK, c2storeE, hu]
  have hcF : (c2storeF e).clientOk = true := rfl
  have hmF : (c2storeF e).modelOk = true := rfl
  have hcE : c2storeE.clientOk = true := rfl
  have hmE : c2storeE.modelOk = true := rfl
  constructor
  · cases hskip : skip_semantic <;>
      simp [CheckDuplicates.check_for_duplicates, hhashF, hhashE, hsemF, hsemE,
        huidF, huidE, hu, hcF, hmF, hcE, hmE]
  · cases hskip : skip_semantic <;>
      simp [CheckDuplicates.check_for_duplicates, hhashF, hsemF, huidF, hu, hcF, hmF]

/-- Witness for C2 (amended): a concrete connection-timeout failure on the
middle collection yields exactly the verdict and details of the empty-store
run. -/
theorem c2_lookup_failure_conflated_witness :
    (CheckDuplicates.check_for_duplicates (c2storeF "connection timeout") "abc"
        (some "story-9-99") true).1
      = (CheckDuplicates.check_for_duplicates c2storeE "abc"
          (some "story-9-99") true).1 :=
  (c2_lookup_failure_conflated "connection timeout" "abc" "story-9-99" true
    rfl (by decide)).1

/-- C7: in `check_semantic_duplicate` a neighbour is flagged exactly when
its similarity score is `>=` the threshold (default 0.85): whenever the
embedding succeeds and the three collection queries return result lists,
the similar-findings list is precisely the score-filtered results of each
collection in order. -/
theorem c7_similarity_threshold (store : CheckDuplicates.DupStore) (content : String)
    (emb : List ℚ) (rs1 rs2 rs3 : List CheckDuplicates.QueryResult)
    (henc : store.encode content = Except.ok emb)
    (h1 : store.query_points "bmad-knowledge" emb = Except.ok rs1)
    (h2 : store.query_points "bmad-best-practices" emb = Except.ok rs2)
    (h3 : store.query_points "agent-memory" emb = Except.ok rs3) :
    (CheckDuplicates.check_semantic_duplicate store content).1.2
      = (rs1.filter (fun res => decide (CheckDuplicates.SIMILARITY_THRESHOLD ≤ res.score))).map
          (CheckDuplicates.semanticFinding "bmad-knowledge")
        ++ (rs2.filter (fun res => decide (CheckDuplicates.SIMILARITY_THRESHOLD ≤ res.score))).map
            (CheckDuplicates.semanticFinding "bmad-best-practices")
        ++ (rs3.filter (fun res => decide (CheckDuplicates.SIMILARITY_THRESHOLD ≤ res.score))).map
            (CheckDuplicates.semanticFinding "agent-memory") := by
  simp [CheckDuplicates.check_semantic_duplicate, CheckDuplicates.COLLECTIONS_TO_CHECK,
    henc, h1, h2, h3, List.append_assoc]

/-- The boundary-score neighbour of the C7 witness: similarity exactly
0.85. -/
def c7r85 : CheckDuplicates.QueryResult :=
  { score := mkRat 85 100, id := 1,
    payload := some { unique_id := "story-1-1", mtype := "story_outcome" } }

/-- The just-below-threshold neighbour of the C7 witness: similarity
0.849. -/
def c7r849 : CheckDuplicates.QueryResult :=
  { score := mkRat 849 1000, id := 2,
    payload := some { unique_id := "story-2-2", mtype := "story_outcome" } }

/-- Store for the C7 witness: the knowledge collection returns the two
boundary neighbours. -/
def c7store : CheckDuplicates.DupStore :=
  { clientOk := true, scroll := fun _ => Except.ok [],
    modelOk := true, encode := fun _ => Except.ok [1],
    query_points := fun coll _ =>
      if coll = "bmad-knowledge" then Except.ok [c7r85, c7r849]
      else Except.ok [] }

/-- Witness for C7: the neighbour scoring exactly 0.85 is flagged and the
one scoring 0.849 is not. -/
theorem c7_similarity_threshold_witness :
    (CheckDuplicates.check_semantic_duplicate c7store "x").1.2
      = [CheckDuplicates.semanticFinding "bmad-knowledge" c7r85] := by
  have h := c7_similarity_threshold c7store "x" [1] [c7r85, c7r849] [] []
    rfl rfl rfl rfl
  rw [h]
  rfl
